import Mathlib

/-!
Verification of the CarryVault core (src/app.js): the in-memory data model,
the permit alert engine (`isPermitExpiringSoon`, `calculateAlerts`,
`generateAlerts`), the facade create operations (`saveFirearm`,
`addMaintenance`, `addTraining`, `addPermit`), the export formatters
(`exportData`, `exportTheftReport`) and the startup load (`loadData`).

Modelling conventions:
* JavaScript numbers that can be NaN (the result of `new Date(string)` on an
  unparseable string, and every arithmetic result built from it) are modelled
  by `JSNum`, a rational number or NaN; `NaN <= c` is `false`, as in JS.
* Date parsing (`new Date(s)` for a string `s`) is ambient browser behaviour,
  not code of the repository, so it is a parameter `parse : String → JSNum`
  of every function that reads a date; the current instant (`new Date()`,
  `Date.now()`) is likewise a parameter.
* DOM input values are strings; a missing/empty field is the empty string,
  the only falsy string, which is how the source's truthiness tests
  (`!firearm.makeModel`, `if (permit.expirationDate)`, `gun.price || ...`)
  are rendered.
* The IndexedDB store writes issued by an operation are recorded in a
  `stores` trace and the DOM view refreshes in a `views` trace; facade
  operations are modelled on their success path (the source awaits
  `addItem` and then updates memory and views unconditionally).
-/

namespace CarryVault

/-- A JavaScript number that may be NaN: `new Date(s).getTime()` is NaN for an
unparseable `s`, and NaN propagates through subtraction and division. -/
inductive JSNum where
  | nan : JSNum
  | num : ℚ → JSNum
deriving DecidableEq

/-- `1000 * 60 * 60 * 24`, the divisor in both alert helpers. -/
def msPerDay : ℚ := 1000 * 60 * 60 * 24

/-- JS `expiration - now` where `expiration` is a (possibly invalid) Date and
`now` a valid one: NaN stays NaN. -/
def jsSubDate : JSNum → ℚ → JSNum
  | JSNum.nan, _ => JSNum.nan
  | JSNum.num t, n => JSNum.num (t - n)

/-- JS division by the constant `1000 * 60 * 60 * 24`: NaN stays NaN. -/
def jsDivMs : JSNum → JSNum
  | JSNum.nan => JSNum.nan
  | JSNum.num q => JSNum.num (q / msPerDay)

/-- JS `x <= c` for a possibly-NaN `x`: any comparison with NaN is false. -/
def jsLe : JSNum → ℚ → Bool
  | JSNum.nan, _ => false
  | JSNum.num q, c => decide (q ≤ c)

/-- The string JS interpolation produces for `Math.ceil(x)`:
`Math.ceil(NaN)` renders as `"NaN"`, an integer renders as its decimal form. -/
def jsCeilStr : JSNum → String
  | JSNum.nan => "NaN"
  | JSNum.num q => toString (⌈q⌉ : ℤ)

/-- JS `a || b` on strings: the empty string is the only falsy string. -/
def jsOrString (a b : String) : String :=
  if a = "" then b else a

/-- The notifications block of the settings singleton (src/app.js:15-19). -/
structure Notifications where
  permitAlerts : Bool
  maintenanceAlerts : Bool
  trainingAlerts : Bool
deriving DecidableEq

/-- The settings singleton value (src/app.js:13-20). -/
structure Settings where
  userState : String
  notifications : Notifications
deriving DecidableEq

/-- A firearm record as built by `saveFirearm` (src/app.js:470-480); the id is
the `Date.now()` millisecond timestamp at creation. -/
structure Firearm where
  id : ℤ
  makeModel : String
  serial : String
  caliber : String
  type : String
  purchaseDate : String
  price : String
  notes : String
  createdAt : String
deriving DecidableEq

/-- A maintenance record as built by `addMaintenance` (src/app.js:504-512). -/
structure MaintenanceRec where
  id : ℤ
  type : String
  date : String
  firearmId : Option ℤ
  firearmMakeModel : String
  notes : String
  createdAt : String
deriving DecidableEq

/-- A training record as built by `addTraining` (src/app.js:521-531). -/
structure TrainingRec where
  id : ℤ
  type : String
  date : String
  duration : ℚ
  firearmId : Option ℤ
  firearmMakeModel : String
  notes : String
  score : Option ℚ
  createdAt : String
deriving DecidableEq

/-- A permit record as built by `addPermit` (src/app.js:540-549). -/
structure Permit where
  id : ℤ
  type : String
  state : String
  issueDate : String
  expirationDate : String
  permitNumber : String
  notes : String
  createdAt : String
deriving DecidableEq

/-- An alert object as pushed by `generateAlerts` (src/app.js:659-669). -/
structure Alert where
  title : String
  description : String
  priority : String
deriving DecidableEq

/-- The in-memory snapshot `this.data` (src/app.js:8-21). -/
structure AppData where
  firearms : List Firearm
  maintenance : List MaintenanceRec
  training : List TrainingRec
  permits : List Permit
  settings : Settings
deriving DecidableEq

/-- The constructor's initial `this.data`: empty collections and default
settings `{userState: "", notifications: all true}` (src/app.js:8-21). -/
def initData : AppData :=
  ⟨[], [], [], [], ⟨"", ⟨true, true, true⟩⟩⟩

/-- `(expiration - now) / (1000 * 60 * 60 * 24)` — the `daysUntil` expression
that appears in both `isPermitExpiringSoon` (src/app.js:644) and
`generateAlerts` (src/app.js:656). -/
def daysUntilOf (parse : String → JSNum) (now : ℚ) (permit : Permit) : JSNum :=
  jsDivMs (jsSubDate (parse permit.expirationDate) now)

/-- `isPermitExpiringSoon` (src/app.js:640-646): false when the permit has no
expirationDate (the empty string is the only falsy string), otherwise
`daysUntil <= 90` with JS NaN semantics. -/
def isPermitExpiringSoon (parse : String → JSNum) (now : ℚ) (permit : Permit) :
    Bool :=
  if permit.expirationDate = "" then false
  else jsLe (daysUntilOf parse now permit) 90

/-- `calculateAlerts` (src/app.js:629-638): a `forEach` over the permits
incrementing a counter when `isPermitExpiringSoon` holds. -/
def calculateAlerts (parse : String → JSNum) (now : ℚ) (permits : List Permit) :
    Nat :=
  permits.foldl
    (fun count permit =>
      if isPermitExpiringSoon parse now permit then count + 1 else count) 0

/-- The body of the `forEach` in `generateAlerts` (src/app.js:653-672): for a
permit with a truthy expirationDate, push a high alert when `daysUntil <= 30`,
else a medium alert when `daysUntil <= 90`, else nothing. -/
def genStep (parse : String → JSNum) (now : ℚ) (alerts : List Alert)
    (permit : Permit) : List Alert :=
  if permit.expirationDate = "" then alerts
  else
    let daysUntil := daysUntilOf parse now permit
    if jsLe daysUntil 30 then
      alerts ++ [⟨permit.type ++ " Expiring Soon",
        "Your " ++ permit.state ++ " " ++ permit.type ++ " expires in " ++
          jsCeilStr daysUntil ++ " days",
        "high"⟩]
    else if jsLe daysUntil 90 then
      alerts ++ [⟨permit.type ++ " Renewal Reminder",
        "Your " ++ permit.state ++ " " ++ permit.type ++ " expires in " ++
          jsCeilStr daysUntil ++ " days",
        "medium"⟩]
    else alerts

/-- `generateAlerts` (src/app.js:648-675): start from an empty array and run
the `forEach` body over the permit snapshot. -/
def generateAlerts (parse : String → JSNum) (now : ℚ) (permits : List Permit) :
    List Alert :=
  permits.foldl (genStep parse now) []

/-- The per-permit alert contribution in the claim's terms (the amended C1
statement): no alert without an expirationDate or when the date does not
parse; one high alert when `daysUntil <= 30`; else one medium alert when
`daysUntil <= 90`; else none — with the exact strings the code produces. -/
def alertForPermitSpec (parse : String → JSNum) (now : ℚ) (permit : Permit) :
    List Alert :=
  if permit.expirationDate = "" then []
  else
    match daysUntilOf parse now permit with
    | JSNum.nan => []
    | JSNum.num d =>
      if d ≤ 30 then
        [⟨permit.type ++ " Expiring Soon",
          "Your " ++ permit.state ++ " " ++ permit.type ++ " expires in " ++
            toString (⌈d⌉ : ℤ) ++ " days",
          "high"⟩]
      else if d ≤ 90 then
        [⟨permit.type ++ " Renewal Reminder",
          "Your " ++ permit.state ++ " " ++ permit.type ++ " expires in " ++
            toString (⌈d⌉ : ℤ) ++ " days",
          "medium"⟩]
      else []

/-- The observable derived values named in the spec: the four dashboard
counters written by `updateDashboard` (src/app.js:263-268) and the compliance
alert list written by `updateAlerts` (src/app.js:401-423). -/
structure UI where
  gunCount : Nat
  maintenanceCount : Nat
  trainingCount : Nat
  alertCount : Nat
  alertList : List Alert
deriving DecidableEq

/-- The blank page before the first `updateDashboard`. -/
def initUI : UI := ⟨0, 0, 0, 0, []⟩

/-- `updateDashboard` (src/app.js:263-268): rewrite the four dashboard
counters from the current snapshot. -/
def updateDashboard (parse : String → JSNum) (now : ℚ) (d : AppData) (ui : UI) :
    UI :=
  ⟨d.firearms.length, d.maintenance.length, d.training.length,
    calculateAlerts parse now d.permits, ui.alertList⟩

/-- The effect of `updateCompliance` (src/app.js:369-373) on the modelled
observables: its `updateAlerts` step rewrites the alert list from the current
snapshot (`updatePermits`/`updateComplianceInfo` touch only unmodelled DOM). -/
def updateComplianceUI (parse : String → JSNum) (now : ℚ) (d : AppData)
    (ui : UI) : UI :=
  ⟨ui.gunCount, ui.maintenanceCount, ui.trainingCount, ui.alertCount,
    generateAlerts parse now d.permits⟩

/-- The form field values `saveFirearm` reads from the DOM
(src/app.js:472-478); each is a string, empty when the field is blank. -/
structure FirearmInput where
  makeModel : String
  serial : String
  caliber : String
  type : String
  purchaseDate : String
  price : String
  notes : String
deriving DecidableEq

/-- Which view-refresh helpers a facade operation invokes. -/
inductive ViewUpdate where
  | inventory : ViewUpdate
  | maintenanceList : ViewUpdate
  | trainingList : ViewUpdate
  | dashboard : ViewUpdate
  | compliance : ViewUpdate
deriving DecidableEq

/-- A store write issued through `addItem` (src/app.js:124-136). -/
inductive StoreWrite where
  | firearmsAdd : Firearm → StoreWrite
  | maintenanceAdd : MaintenanceRec → StoreWrite
  | trainingAdd : TrainingRec → StoreWrite
  | permitsAdd : Permit → StoreWrite
deriving DecidableEq

/-- The ambient environment of one facade call: the browser's date parser, the
current instant (`Date.now()` / `new Date()`, in ms), today's date string and
the ISO creation timestamp. -/
structure Env where
  parse : String → JSNum
  now : ℤ
  today : String
  createdAt : String

/-- What one facade operation produces: the new snapshot, the new observable
view state, the view refreshes performed and the store writes issued. -/
structure OpResult where
  data : AppData
  ui : UI
  views : List ViewUpdate
  stores : List StoreWrite

/-- `saveFirearm` (src/app.js:469-501): build the record with `id: Date.now()`,
reject when makeModel is falsy before any store access, otherwise write the
store, push into the snapshot, and refresh inventory and dashboard. -/
def saveFirearm (env : Env) (input : FirearmInput) (d : AppData) (ui : UI) :
    OpResult :=
  let firearm : Firearm :=
    ⟨env.now, input.makeModel, input.serial, input.caliber, input.type,
      input.purchaseDate, input.price, input.notes, env.createdAt⟩
  if firearm.makeModel = "" then ⟨d, ui, [], []⟩
  else
    let d' : AppData :=
      ⟨d.firearms ++ [firearm], d.maintenance, d.training, d.permits,
        d.settings⟩
    ⟨d', updateDashboard env.parse (env.now : ℚ) d' ui,
      [ViewUpdate.inventory, ViewUpdate.dashboard],
      [StoreWrite.firearmsAdd firearm]⟩

/-- `addMaintenance` (src/app.js:503-518): a default "Cleaning" record with
`id: Date.now()`, written to the store, pushed, then maintenance list and
dashboard refreshed. -/
def addMaintenance (env : Env) (d : AppData) (ui : UI) : OpResult :=
  let m : MaintenanceRec :=
    ⟨env.now, "Cleaning", env.today, none, "General", "", env.createdAt⟩
  let d' : AppData :=
    ⟨d.firearms, d.maintenance ++ [m], d.training, d.permits, d.settings⟩
  ⟨d', updateDashboard env.parse (env.now : ℚ) d' ui,
    [ViewUpdate.maintenanceList, ViewUpdate.dashboard],
    [StoreWrite.maintenanceAdd m]⟩

/-- `addTraining` (src/app.js:520-537): a default "Range Session" record with
`id: Date.now()`, written to the store, pushed, then training list and
dashboard refreshed. -/
def addTraining (env : Env) (d : AppData) (ui : UI) : OpResult :=
  let t : TrainingRec :=
    ⟨env.now, "Range Session", env.today, 1, none, "General", "", none,
      env.createdAt⟩
  let d' : AppData :=
    ⟨d.firearms, d.maintenance, d.training ++ [t], d.permits, d.settings⟩
  ⟨d', updateDashboard env.parse (env.now : ℚ) d' ui,
    [ViewUpdate.trainingList, ViewUpdate.dashboard],
    [StoreWrite.trainingAdd t]⟩

/-- `addPermit` (src/app.js:539-554): a default "Concealed Carry" record with
`id: Date.now()` and empty expirationDate, written to the store, pushed, then
only `updateCompliance` is invoked — not `updateDashboard`. -/
def addPermit (env : Env) (d : AppData) (ui : UI) : OpResult :=
  let p : Permit :=
    ⟨env.now, "Concealed Carry", "", "", "", "", "", env.createdAt⟩
  let d' : AppData :=
    ⟨d.firearms, d.maintenance, d.training, d.permits ++ [p], d.settings⟩
  ⟨d', updateComplianceUI env.parse (env.now : ℚ) d' ui,
    [ViewUpdate.compliance],
    [StoreWrite.permitsAdd p]⟩

/-- One create operation of the facade. -/
inductive CreateOp where
  | firearm : FirearmInput → CreateOp
  | maintenance : CreateOp
  | training : CreateOp
  | permit : CreateOp

/-- Dispatch a create operation to the corresponding facade function. -/
def applyOp (env : Env) (op : CreateOp) (d : AppData) (ui : UI) : OpResult :=
  match op with
  | CreateOp.firearm input => saveFirearm env input d ui
  | CreateOp.maintenance => addMaintenance env d ui
  | CreateOp.training => addTraining env d ui
  | CreateOp.permit => addPermit env d ui

/-- The rendered derived values agree with the snapshot: each dashboard
counter shows the corresponding collection size resp. alert count, and the
alert list shows `generateAlerts` of the permit snapshot. -/
def uiSync (parse : String → JSNum) (now : ℚ) (d : AppData) (ui : UI) : Prop :=
  ui.gunCount = d.firearms.length ∧
  ui.maintenanceCount = d.maintenance.length ∧
  ui.trainingCount = d.training.length ∧
  ui.alertCount = calculateAlerts parse now d.permits ∧
  ui.alertList = generateAlerts parse now d.permits

/-- The record carried by a store write is present in a snapshot. -/
def storedInSnapshot (w : StoreWrite) (d : AppData) : Prop :=
  match w with
  | StoreWrite.firearmsAdd f => f ∈ d.firearms
  | StoreWrite.maintenanceAdd m => m ∈ d.maintenance
  | StoreWrite.trainingAdd t => t ∈ d.training
  | StoreWrite.permitsAdd p => p ∈ d.permits

/-- Every record written to the store is present in the snapshot. -/
def writesRecorded (ws : List StoreWrite) (d : AppData) : Prop :=
  ∀ w ∈ ws, storedInSnapshot w d

/-- The full-backup document built by `exportData` (src/app.js:557-574). -/
structure ExportDoc where
  firearms : List Firearm
  maintenance : List MaintenanceRec
  training : List TrainingRec
  permits : List Permit
  settings : Settings
  exportDate : String
deriving DecidableEq

/-- `exportData` (src/app.js:557-574): the four collections verbatim, the
settings, and the generation timestamp. -/
def exportData (d : AppData) (exportDate : String) : ExportDoc :=
  ⟨d.firearms, d.maintenance, d.training, d.permits, d.settings, exportDate⟩

/-- Modelled from the spec: loading a backup document's
firearms/maintenance/training/permits arrays (and settings) back into the
in-memory snapshot; the repository ships no import routine, only the export. -/
def loadBackup (doc : ExportDoc) : AppData :=
  ⟨doc.firearms, doc.maintenance, doc.training, doc.permits, doc.settings⟩

/-- The placeholder personal-info block of the theft report
(src/app.js:603-608). -/
structure PersonalInfo where
  name : String
  address : String
  phone : String
deriving DecidableEq

/-- One projected firearm in the theft report (src/app.js:609-616); these six
fields are the whole projection — id, notes and createdAt do not appear. -/
structure StolenItem where
  makeModel : String
  serial : String
  caliber : String
  type : String
  purchaseDate : String
  estimatedValue : String
deriving DecidableEq

/-- The theft-report document (src/app.js:600-617). -/
structure TheftReport where
  type : String
  generated : String
  personalInfo : PersonalInfo
  stolenItems : List StolenItem
deriving DecidableEq

/-- `exportTheftReport` (src/app.js:599-626): discriminator, timestamp,
literal fill-in markers, and the firearm projection with
`estimatedValue: gun.price || '[ESTIMATED VALUE]'`. -/
def exportTheftReport (d : AppData) (generated : String) : TheftReport :=
  ⟨"Theft Report Template", generated,
    ⟨"[YOUR NAME]", "[YOUR ADDRESS]", "[YOUR PHONE]"⟩,
    d.firearms.map (fun gun =>
      ⟨gun.makeModel, gun.serial, gun.caliber, gun.type, gun.purchaseDate,
        jsOrString gun.price "[ESTIMATED VALUE]"⟩)⟩

/-- One persisted settings row (`{ key, value }`, src/app.js:96-99). -/
structure SettingsRow where
  key : String
  value : Settings
deriving DecidableEq

/-- The outcomes of the five `getAll` reads issued by `loadData`
(src/app.js:75-111); each read either yields the collection's records or
rejects with an error message. -/
structure Reads where
  firearms : Except String (List Firearm)
  maintenance : Except String (List MaintenanceRec)
  training : Except String (List TrainingRec)
  permits : Except String (List Permit)
  settings : Except String (List SettingsRow)

/-- `loadData` (src/app.js:75-111) run right after `initDB`: `db` is `none`
when the open failed (`initDB` resolves on error with `this.db` still null,
src/app.js:41-44), in which case the function returns at once; otherwise the
`try` block assigns the five collections in order and the `catch` only logs,
so a failing read keeps the collections already assigned and never surfaces an
error — the second component is the error surfaced to the caller, always
`none`. -/
def loadData (db : Option Unit) (d : AppData) (r : Reads) :
    AppData × Option String :=
  match db with
  | none => (d, none)
  | some _ =>
    match r.firearms with
    | Except.error _ => (d, none)
    | Except.ok fs =>
      let d1 : AppData := ⟨fs, d.maintenance, d.training, d.permits, d.settings⟩
      match r.maintenance with
      | Except.error _ => (d1, none)
      | Except.ok ms =>
        let d2 : AppData := ⟨fs, ms, d.training, d.permits, d.settings⟩
        match r.training with
        | Except.error _ => (d2, none)
        | Except.ok ts =>
          let d3 : AppData := ⟨fs, ms, ts, d.permits, d.settings⟩
          match r.permits with
          | Except.error _ => (d3, none)
          | Except.ok qs =>
            let d4 : AppData := ⟨fs, ms, ts, qs, d.settings⟩
            match r.settings with
            | Except.error _ => (d4, none)
            | Except.ok rows =>
              match rows with
              | [] => (d4, none)
              | row :: _ => (⟨fs, ms, ts, qs, row.value⟩, none)

/-- One step of the `generateAlerts` loop appends that permit's contribution. -/
lemma genStep_eq (parse : String → JSNum) (now : ℚ) (acc : List Alert)
    (p : Permit) :
    genStep parse now acc p = acc ++ alertForPermitSpec parse now p := by
  unfold genStep alertForPermitSpec
  by_cases h : p.expirationDate = ""
  · simp [h]
  · simp only [h, if_false]
    cases hd : daysUntilOf parse now p with
    | nan => simp [jsLe]
    | num d =>
      by_cases h30 : d ≤ 30
      · simp [jsLe, jsCeilStr, h30]
      · by_cases h90 : d ≤ 90
        · simp [jsLe, jsCeilStr, h30, h90]
        · simp [jsLe, h30, h90]

/-- Folding the `generateAlerts` loop body accumulates the per-permit
contributions in order. -/
lemma foldl_genStep (parse : String → JSNum) (now : ℚ) (ps : List Permit) :
    ∀ acc : List Alert,
      ps.foldl (genStep parse now) acc =
        acc ++ ps.flatMap (alertForPermitSpec parse now) := by
  induction ps with
  | nil => intro acc; simp
  | cons p ps ih =>
    intro acc
    simp only [List.foldl_cons, List.flatMap_cons, ih, genStep_eq,
      List.append_assoc]

/-- `generateAlerts` is the concatenation of the per-permit contributions. -/
lemma generateAlerts_eq_flatMap (parse : String → JSNum) (now : ℚ)
    (ps : List Permit) :
    generateAlerts parse now ps = ps.flatMap (alertForPermitSpec parse now) := by
  unfold generateAlerts
  simpa using foldl_genStep parse now ps []

/-- A permit contributes exactly one alert iff `isPermitExpiringSoon` holds
for it, and none otherwise: the two helpers use the same threshold. -/
lemma alertForPermitSpec_length (parse : String → JSNum) (now : ℚ)
    (p : Permit) :
    (alertForPermitSpec parse now p).length =
      if isPermitExpiringSoon parse now p then 1 else 0 := by
  unfold alertForPermitSpec isPermitExpiringSoon
  by_cases h : p.expirationDate = ""
  · simp [h]
  · simp only [h, if_false]
    cases hd : daysUntilOf parse now p with
    | nan => simp [jsLe]
    | num d =>
      by_cases h30 : d ≤ 30
      · simp [jsLe, h30, le_trans h30 (by norm_num : (30 : ℚ) ≤ 90)]
      · by_cases h90 : d ≤ 90
        · simp [jsLe, h30, h90]
        · simp [jsLe, h30, h90]

/-- `calculateAlerts` counts the permits satisfying `isPermitExpiringSoon`. -/
lemma calculateAlerts_eq_countP (parse : String → JSNum) (now : ℚ)
    (ps : List Permit) :
    calculateAlerts parse now ps =
      ps.countP (fun p => isPermitExpiringSoon parse now p) := by
  unfold calculateAlerts
  have step : ∀ (l : List Permit) (n : Nat),
      l.foldl
        (fun count permit =>
          if isPermitExpiringSoon parse now permit then count + 1 else count)
        n = n + l.countP (fun p => isPermitExpiringSoon parse now p) := by
    intro l
    induction l with
    | nil => intro n; simp
    | cons p l ih =>
      intro n
      by_cases h : isPermitExpiringSoon parse now p
      · simp [List.countP_cons, h, ih]; omega
      · simp [List.countP_cons, h, ih]
  simpa using step ps 0

/-- The total number of generated alerts is the count of expiring permits. -/
lemma generateAlerts_length (parse : String → JSNum) (now : ℚ)
    (ps : List Permit) :
    (generateAlerts parse now ps).length =
      ps.countP (fun p => isPermitExpiringSoon parse now p) := by
  rw [generateAlerts_eq_flatMap]
  induction ps with
  | nil => simp
  | cons p ps ih =>
    simp only [List.flatMap_cons, List.length_append, ih, List.countP_cons]
    rw [alertForPermitSpec_length]
    by_cases h : isPermitExpiringSoon parse now p
    · simp only [h, if_true]
      omega
    · simp only [h, if_false]
      omega

/-- Appending one permit changes the alert count by its own contribution. -/
lemma calculateAlerts_append_one (parse : String → JSNum) (now : ℚ)
    (ps : List Permit) (p : Permit) :
    calculateAlerts parse now (ps ++ [p]) =
      if isPermitExpiringSoon parse now p then calculateAlerts parse now ps + 1
      else calculateAlerts parse now ps := by
  simp only [calculateAlerts_eq_countP, List.countP_append, List.countP_cons,
    List.countP_nil]
  by_cases h : isPermitExpiringSoon parse now p <;> simp [h]

/-- C1 (amended): for every permit snapshot, `generateAlerts` emits, permit by
permit, exactly the contribution described by `alertForPermitSpec`: nothing
when the expirationDate is empty or does not parse, exactly one high-priority
alert titled `<permitType> Expiring Soon` with description
`Your <state> <permitType> expires in <ceil(daysUntil)> days` when
`daysUntil <= 30`, else exactly one medium-priority alert titled
`<permitType> Renewal Reminder` with the same description form when
`daysUntil <= 90`, else nothing; each permit contributes at most one alert. -/
theorem C1_alert_generation (parse : String → JSNum) (now : ℚ)
    (ps : List Permit) :
    generateAlerts parse now ps = ps.flatMap (alertForPermitSpec parse now) ∧
    ∀ p : Permit, (alertForPermitSpec parse now p).length ≤ 1 := by
  refine ⟨generateAlerts_eq_flatMap parse now ps, fun p => ?_⟩
  rw [alertForPermitSpec_length]
  by_cases h : isPermitExpiringSoon parse now p
  · simp [h]
  · simp [h]

/-- C1 counterexample: for a permit of type "Concealed Carry" in state "TX"
expiring 10 days from now, the engine emits the alert titled
"Concealed Carry Expiring Soon" with description
"Your TX Concealed Carry expires in 10 days", and neither string is the
message "Concealed Carry expiring in 10 days" that the claim prescribes. -/
theorem C1_counterexample :
    generateAlerts
        (fun s => if s = "P" then JSNum.num 864000000 else JSNum.nan) 0
        [⟨1, "Concealed Carry", "TX", "", "P", "", "", ""⟩] =
      [⟨"Concealed Carry Expiring Soon",
        "Your TX Concealed Carry expires in 10 days", "high"⟩] ∧
    "Your TX Concealed Carry expires in 10 days" ≠
      "Concealed Carry expiring in 10 days" ∧
    "Concealed Carry Expiring Soon" ≠
      "Concealed Carry expiring in 10 days" := by
  refine ⟨?_, by decide, by decide⟩
  have hd : daysUntilOf
      (fun s => if s = "P" then JSNum.num 864000000 else JSNum.nan) 0
      ⟨1, "Concealed Carry", "TX", "", "P", "", "", ""⟩ = JSNum.num 10 := by
    simp only [daysUntilOf, jsSubDate, jsDivMs]
    norm_num [msPerDay]
  rw [generateAlerts_eq_flatMap]
  unfold alertForPermitSpec
  rw [List.flatMap_cons]
  simp only [hd]
  norm_num
  decide

/-- C2: the dashboard alert count computed by `calculateAlerts` equals the
number of alerts produced by `generateAlerts` on the same permit snapshot and
reference time, and `isPermitExpiringSoon` holds exactly when the permit has a
non-empty expirationDate and `daysUntil <= 90` (with NaN qualifying never). -/
theorem C2_count_consistency (parse : String → JSNum) (now : ℚ)
    (ps : List Permit) :
    calculateAlerts parse now ps = (generateAlerts parse now ps).length ∧
    ∀ p : Permit,
      isPermitExpiringSoon parse now p =
        (!(p.expirationDate == "") && jsLe (daysUntilOf parse now p) 90) := by
  constructor
  · rw [calculateAlerts_eq_countP, generateAlerts_length]
  · intro p
    unfold isPermitExpiringSoon
    by_cases h : p.expirationDate = ""
    · simp [h]
    · simp [h]

/-- C3: a permit whose expirationDate parses to an instant strictly before
`now` (negative `daysUntil`) yields exactly one alert, of high priority: an
expired permit is never silently dropped from the alert list. -/
theorem C3_expired_high_alert (parse : String → JSNum) (now : ℚ)
    (ps : List Permit) (p : Permit) (t : ℚ)
    (hmem : p ∈ ps) (hne : p.expirationDate ≠ "")
    (hparse : parse p.expirationDate = JSNum.num t) (hlt : t < now) :
    (generateAlerts parse now [p]).map (fun a => a.priority) = ["high"] ∧
    "high" ∈ (generateAlerts parse now ps).map (fun a => a.priority) := by
  have hd : daysUntilOf parse now p = JSNum.num ((t - now) / msPerDay) := by
    simp [daysUntilOf, jsSubDate, jsDivMs, hparse]
  have hneg : (t - now) / msPerDay < 0 :=
    div_neg_of_neg_of_pos (by linarith) (by norm_num [msPerDay])
  have h30 : (t - now) / msPerDay ≤ 30 :=
    le_of_lt (lt_of_lt_of_le hneg (by norm_num))
  have hspec : alertForPermitSpec parse now p =
      [⟨p.type ++ " Expiring Soon",
        "Your " ++ p.state ++ " " ++ p.type ++ " expires in " ++
          toString (⌈(t - now) / msPerDay⌉ : ℤ) ++ " days",
        "high"⟩] := by
    unfold alertForPermitSpec
    simp only [hne, if_false, hd]
    simp [h30]
  constructor
  · rw [generateAlerts_eq_flatMap]
    simp [hspec]
  · rw [generateAlerts_eq_flatMap]
    refine List.mem_map.mpr
      ⟨⟨p.type ++ " Expiring Soon",
        "Your " ++ p.state ++ " " ++ p.type ++ " expires in " ++
          toString (⌈(t - now) / msPerDay⌉ : ℤ) ++ " days",
        "high"⟩,
      List.mem_flatMap.mpr ⟨p, hmem, ?_⟩, rfl⟩
    rw [hspec]
    exact List.mem_singleton.mpr rfl

/-- C3 witness: a "Concealed Carry" permit expired 5 days ago (its date parses
to instant 0, now is 432000000 ms later) produces exactly one high alert. -/
theorem C3_witness :
    ((⟨1, "Concealed Carry", "TX", "", "E", "", "", ""⟩ : Permit) ∈
        [(⟨1, "Concealed Carry", "TX", "", "E", "", "", ""⟩ : Permit)] ∧
      (Permit.expirationDate ⟨1, "Concealed Carry", "TX", "", "E", "", "", ""⟩) ≠ "" ∧
      (fun s => if s = "E" then JSNum.num 0 else JSNum.nan)
        (Permit.expirationDate ⟨1, "Concealed Carry", "TX", "", "E", "", "", ""⟩) =
        JSNum.num 0 ∧
      (0 : ℚ) < 432000000) ∧
    ((generateAlerts (fun s => if s = "E" then JSNum.num 0 else JSNum.nan)
        432000000
        [⟨1, "Concealed Carry", "TX", "", "E", "", "", ""⟩]).map
          (fun a => a.priority) = ["high"] ∧
      "high" ∈
        (generateAlerts (fun s => if s = "E" then JSNum.num 0 else JSNum.nan)
          432000000
          [⟨1, "Concealed Carry", "TX", "", "E", "", "", ""⟩]).map
            (fun a => a.priority)) :=
  ⟨⟨by decide, by decide, by decide, by decide⟩,
    C3_expired_high_alert
      (fun s => if s = "E" then JSNum.num 0 else JSNum.nan) 432000000
      [⟨1, "Concealed Carry", "TX", "", "E", "", "", ""⟩]
      ⟨1, "Concealed Carry", "TX", "", "E", "", "", ""⟩ 0
      (by decide) (by decide) (by decide) (by decide)⟩

/-- C10: a permit whose expirationDate is a non-empty string that does not
parse (NaN) produces no alert, is not counted as expiring soon, and leaves the
alert count unchanged — both helpers treat it as not expiring. -/
theorem C10_malformed_dates (parse : String → JSNum) (now : ℚ) (p : Permit)
    (ps : List Permit) (hne : p.expirationDate ≠ "")
    (hnan : parse p.expirationDate = JSNum.nan) :
    generateAlerts parse now [p] = [] ∧
    isPermitExpiringSoon parse now p = false ∧
    calculateAlerts parse now (p :: ps) = calculateAlerts parse now ps := by
  have hd : daysUntilOf parse now p = JSNum.nan := by
    simp [daysUntilOf, jsSubDate, jsDivMs, hnan]
  have hsoon : isPermitExpiringSoon parse now p = false := by
    unfold isPermitExpiringSoon
    simp [hne, hd, jsLe]
  refine ⟨?_, hsoon, ?_⟩
  · rw [generateAlerts_eq_flatMap]
    unfold alertForPermitSpec
    simp [hne, hd]
  · simp [calculateAlerts_eq_countP, List.countP_cons, hsoon]

/-- C10 witness: a permit whose expirationDate "banana" parses to NaN yields
no alert, is not expiring soon, and does not change the alert count. -/
theorem C10_witness :
    ((Permit.expirationDate
        ⟨1, "Concealed Carry", "TX", "", "banana", "", "", ""⟩) ≠ "" ∧
      (fun _ : String => JSNum.nan)
        (Permit.expirationDate
          ⟨1, "Concealed Carry", "TX", "", "banana", "", "", ""⟩) =
        JSNum.nan) ∧
    (generateAlerts (fun _ : String => JSNum.nan) 0
        [⟨1, "Concealed Carry", "TX", "", "banana", "", "", ""⟩] = [] ∧
      isPermitExpiringSoon (fun _ : String => JSNum.nan) 0
        ⟨1, "Concealed Carry", "TX", "", "banana", "", "", ""⟩ = false ∧
      calculateAlerts (fun _ : String => JSNum.nan) 0
        [⟨1, "Concealed Carry", "TX", "", "banana", "", "", ""⟩] =
        calculateAlerts (fun _ : String => JSNum.nan) 0 []) :=
  ⟨⟨by decide, rfl⟩,
    C10_malformed_dates (fun _ : String => JSNum.nan) 0
      ⟨1, "Concealed Carry", "TX", "", "banana", "", "", ""⟩ []
      (by decide) rfl⟩

/-- C4: the id scheme is `Date.now()`, so two create operations that run in
the same millisecond assign the same id: running `addPermit` twice with the
clock at 1700000000000 leaves the permits collection with the duplicate id
list [1700000000000, 1700000000000] — the uniqueness invariant fails. -/
theorem C4_duplicate_ids :
    ((applyOp ⟨fun _ => JSNum.nan, 1700000000000, "2024-01-01", "T"⟩
        CreateOp.permit
        (applyOp ⟨fun _ => JSNum.nan, 1700000000000, "2024-01-01", "T"⟩
          CreateOp.permit initData initUI).data
        (applyOp ⟨fun _ => JSNum.nan, 1700000000000, "2024-01-01", "T"⟩
          CreateOp.permit initData initUI).ui).data.permits.map
      (fun p => p.id)) = [1700000000000, 1700000000000] ∧
    ¬ ((applyOp ⟨fun _ => JSNum.nan, 1700000000000, "2024-01-01", "T"⟩
        CreateOp.permit
        (applyOp ⟨fun _ => JSNum.nan, 1700000000000, "2024-01-01", "T"⟩
          CreateOp.permit initData initUI).data
        (applyOp ⟨fun _ => JSNum.nan, 1700000000000, "2024-01-01", "T"⟩
          CreateOp.permit initData initUI).ui).data.permits.map
      (fun p => p.id)).Nodup := by
  decide

/-- C5: a firearm input with empty makeModel is rejected before any store
access: `saveFirearm` issues no store write, refreshes no view, and leaves
the in-memory snapshot unchanged, so the rejected record reaches neither the
store nor any subsequent `getAll` or snapshot read. -/
theorem C5_validation_rejects (env : Env) (input : FirearmInput) (d : AppData)
    (ui : UI) (hmm : input.makeModel = "") :
    (applyOp env (CreateOp.firearm input) d ui).stores = [] ∧
    (applyOp env (CreateOp.firearm input) d ui).data = d ∧
    (applyOp env (CreateOp.firearm input) d ui).views = [] ∧
    (applyOp env (CreateOp.firearm input) d ui).ui = ui := by
  simp [applyOp, saveFirearm, hmm]

/-- C5 witness: submitting the form with a blank Make/Model field changes
nothing and writes nothing. -/
theorem C5_witness :
    FirearmInput.makeModel ⟨"", "S1", "9mm", "Pistol", "2024-01-01", "500", "n"⟩
        = "" ∧
    ((applyOp ⟨fun _ => JSNum.nan, 5, "d", "c"⟩
        (CreateOp.firearm ⟨"", "S1", "9mm", "Pistol", "2024-01-01", "500", "n"⟩)
        initData initUI).stores = [] ∧
      (applyOp ⟨fun _ => JSNum.nan, 5, "d", "c"⟩
        (CreateOp.firearm ⟨"", "S1", "9mm", "Pistol", "2024-01-01", "500", "n"⟩)
        initData initUI).data = initData ∧
      (applyOp ⟨fun _ => JSNum.nan, 5, "d", "c"⟩
        (CreateOp.firearm ⟨"", "S1", "9mm", "Pistol", "2024-01-01", "500", "n"⟩)
        initData initUI).views = [] ∧
      (applyOp ⟨fun _ => JSNum.nan, 5, "d", "c"⟩
        (CreateOp.firearm ⟨"", "S1", "9mm", "Pistol", "2024-01-01", "500", "n"⟩)
        initData initUI).ui = initUI) :=
  ⟨rfl,
    C5_validation_rejects ⟨fun _ => JSNum.nan, 5, "d", "c"⟩
      ⟨"", "S1", "9mm", "Pistol", "2024-01-01", "500", "n"⟩ initData initUI rfl⟩

/-- C6 (amended): every create operation pushes the written record into the
in-memory snapshot before returning, and it recomputes some of the derived
views — `saveFirearm`/`addMaintenance`/`addTraining` rerun the dashboard
counters and `addPermit` reruns the compliance alert list; the derived values
it does not recompute are unaffected by the mutation, so whenever the rendered
values agree with the snapshot before the call they still agree afterwards:
no stale derived value is observable. -/
theorem C6_sync_preserved (env : Env) (op : CreateOp) (d : AppData) (ui : UI)
    (hsync : uiSync env.parse (env.now : ℚ) d ui) :
    uiSync env.parse (env.now : ℚ) (applyOp env op d ui).data
        (applyOp env op d ui).ui ∧
    writesRecorded (applyOp env op d ui).stores (applyOp env op d ui).data := by
  obtain ⟨h1, h2, h3, h4, h5⟩ := hsync
  cases op with
  | firearm input =>
    by_cases hmm : input.makeModel = ""
    · simp only [applyOp, saveFirearm, hmm, if_true]
      exact ⟨⟨h1, h2, h3, h4, h5⟩, fun w hw => absurd hw (List.not_mem_nil w)⟩
    · simp only [applyOp, saveFirearm, hmm, if_false]
      refine ⟨⟨rfl, rfl, rfl, rfl, h5⟩, fun w hw => ?_⟩
      rw [List.mem_singleton.mp hw]
      exact List.mem_append_right _ (List.mem_singleton.mpr rfl)
  | maintenance =>
    simp only [applyOp, addMaintenance]
    refine ⟨⟨rfl, rfl, rfl, rfl, h5⟩, fun w hw => ?_⟩
    rw [List.mem_singleton.mp hw]
    exact List.mem_append_right _ (List.mem_singleton.mpr rfl)
  | training =>
    simp only [applyOp, addTraining]
    refine ⟨⟨rfl, rfl, rfl, rfl, h5⟩, fun w hw => ?_⟩
    rw [List.mem_singleton.mp hw]
    exact List.mem_append_right _ (List.mem_singleton.mpr rfl)
  | permit =>
    simp only [applyOp, addPermit, updateComplianceUI]
    refine ⟨⟨h1, h2, h3, ?_, rfl⟩, fun w hw => ?_⟩
    · rw [h4, calculateAlerts_append_one]
      have hnotsoon : isPermitExpiringSoon env.parse (env.now : ℚ)
          ⟨env.now, "Concealed Carry", "", "", "", "", "", env.createdAt⟩ =
          false := rfl
      rw [hnotsoon]
      simp
    · rw [List.mem_singleton.mp hw]
      exact List.mem_append_right _ (List.mem_singleton.mpr rfl)

/-- C6 witness: with the page in sync, adding a permit keeps every rendered
derived value in agreement with the updated snapshot and records the write. -/
theorem C6_witness :
    uiSync (fun _ : String => JSNum.nan) (((5 : ℤ) : ℚ)) initData initUI ∧
    (uiSync (fun _ : String => JSNum.nan) (((5 : ℤ) : ℚ))
        (applyOp ⟨fun _ => JSNum.nan, 5, "d", "c"⟩ CreateOp.permit initData
          initUI).data
        (applyOp ⟨fun _ => JSNum.nan, 5, "d", "c"⟩ CreateOp.permit initData
          initUI).ui ∧
      writesRecorded
        (applyOp ⟨fun _ => JSNum.nan, 5, "d", "c"⟩ CreateOp.permit initData
          initUI).stores
        (applyOp ⟨fun _ => JSNum.nan, 5, "d", "c"⟩ CreateOp.permit initData
          initUI).data) :=
  ⟨⟨rfl, rfl, rfl, rfl, rfl⟩,
    C6_sync_preserved ⟨fun _ => JSNum.nan, 5, "d", "c"⟩ CreateOp.permit
      initData initUI ⟨rfl, rfl, rfl, rfl, rfl⟩⟩

/-- C6 counterexample: `addPermit` invokes only the compliance refresh — the
dashboard-counter recomputation (`updateDashboard`) is not among the view
updates it performs, so the claim that every mutation recomputes all four
dashboard counts before returning is false. -/
theorem C6_counterexample :
    (applyOp ⟨fun _ => JSNum.nan, 1700000000000, "2024-01-01", "T"⟩
        CreateOp.permit initData initUI).views = [ViewUpdate.compliance] ∧
    ViewUpdate.dashboard ∉
      (applyOp ⟨fun _ => JSNum.nan, 1700000000000, "2024-01-01", "T"⟩
        CreateOp.permit initData initUI).views := by
  decide

/-- C7: the full-backup document carries the four collections verbatim, the
settings, and the exportDate timestamp; loading its arrays (and settings) back
reproduces the original snapshot exactly, the added exportDate excluded. -/
theorem C7_backup_roundtrip (d : AppData) (ts : String) :
    loadBackup (exportData d ts) = d ∧
    (exportData d ts).firearms = d.firearms ∧
    (exportData d ts).maintenance = d.maintenance ∧
    (exportData d ts).training = d.training ∧
    (exportData d ts).permits = d.permits ∧
    (exportData d ts).settings = d.settings ∧
    (exportData d ts).exportDate = ts :=
  ⟨rfl, rfl, rfl, rfl, rfl, rfl, rfl⟩

/-- C8: the theft report projects each firearm to exactly the six fields of
`StolenItem` — makeModel, serial, caliber, type, purchaseDate and
estimatedValue, the last being the price when it is non-empty and the literal
placeholder "[ESTIMATED VALUE]" when the price is absent (empty); id, notes
and createdAt have no place in the projected record type. -/
theorem C8_theft_projection (d : AppData) (ts : String) :
    (exportTheftReport d ts).stolenItems =
      d.firearms.map (fun gun =>
        ⟨gun.makeModel, gun.serial, gun.caliber, gun.type, gun.purchaseDate,
          if gun.price = "" then "[ESTIMATED VALUE]" else gun.price⟩) ∧
    (exportTheftReport d ts).type = "Theft Report Template" ∧
    (exportTheftReport d ts).generated = ts :=
  ⟨rfl, rfl, rfl⟩

/-- C9 (amended): when the storage open fails the facade continues with the
empty default dataset (empty collections, default settings) and surfaces no
error; moreover the startup load never surfaces any error at all — a
collection read that fails after a successful open is caught and swallowed
too, keeping the collections already loaded and defaults for the rest. -/
theorem C9_startup_degrades (r : Reads) :
    loadData none initData r = (initData, none) ∧
    ∀ (db : Option Unit) (d : AppData) (r2 : Reads),
      (loadData db d r2).2 = none := by
  refine ⟨rfl, ?_⟩
  intro db d r2
  obtain ⟨f, m, t, q, s⟩ := r2
  cases db with
  | none => rfl
  | some u =>
    cases f with
    | error e => rfl
    | ok fs =>
      cases m with
      | error e => rfl
      | ok ms =>
        cases t with
        | error e => rfl
        | ok ts =>
          cases q with
          | error e => rfl
          | ok qs =>
            cases s with
            | error e => rfl
            | ok rows =>
              cases rows with
              | nil => rfl
              | cons row rest => rfl

/-- C9 counterexample: with the store open, a failing firearms read (e.g. a
quota error) is caught by `loadData`'s catch and never surfaced — so
`StorageUnavailable` at startup is not the only swallowed error. -/
theorem C9_counterexample :
    loadData (some ()) initData
      ⟨Except.error "QuotaExceededError", Except.ok [], Except.ok [],
        Except.ok [], Except.ok []⟩ = (initData, none) := rfl

end CarryVault
